import Mathlib

/-
Verification of the error representation and propagation model of the
execution/errors package: the error-kind taxonomy, the nil-safe coded
failure value, its constructors and combinators, and the first-error latch.

Modelling conventions:
- The Go type Code (uint32) is modelled as Nat; the source performs no
  arithmetic on codes, only equality tests, so every uint32 value is
  represented faithfully.
- A possibly-nil pointer value of type Exception is modelled as
  Option Exception; the nil pointer is none.
- A method whose body dereferences a possibly-nil receiver returns an
  Option result: none models the run-time panic raised by a nil
  dereference, some v models a normal return of v.
- A Go error interface value is modelled by Option GoError: none is the
  nil interface; GoError.exception carries a (possibly typed-nil) value
  of the concrete Exception pointer type, GoError.coded models any other
  implementation of the CodedError interface by the pair of results of
  its ErrorCode and Error methods, and GoError.plain models a plain
  error by the result of its Error method.
- fmt.Sprintf in the formatting constructors is modelled by passing the
  already-formatted result string.
-/

namespace errors

/-- Code models the source type Code, an integer-backed error-kind identifier. -/
abbrev Code := Nat

/-- Str abbreviates the built-in string type, needed in signatures where a
method namespace shadows the plain name of that type. -/
abbrev Str := String

def ErrorCodeGeneric : Code := 0

def ErrorCodeUnknownAddress : Code := 1

def ErrorCodeInsufficientBalance : Code := 2

def ErrorCodeInvalidJumpDest : Code := 3

def ErrorCodeInsufficientGas : Code := 4

def ErrorCodeMemoryOutOfBounds : Code := 5

def ErrorCodeCodeOutOfBounds : Code := 6

def ErrorCodeInputOutOfBounds : Code := 7

def ErrorCodeReturnDataOutOfBounds : Code := 8

def ErrorCodeCallStackOverflow : Code := 9

def ErrorCodeCallStackUnderflow : Code := 10

def ErrorCodeDataStackOverflow : Code := 11

def ErrorCodeDataStackUnderflow : Code := 12

def ErrorCodeInvalidContract : Code := 13

def ErrorCodeNativeContractCodeCopy : Code := 14

def ErrorCodeExecutionAborted : Code := 15

def ErrorCodeExecutionReverted : Code := 16

def ErrorCodePermissionDenied : Code := 17

def ErrorCodeNativeFunction : Code := 18

def ErrorCodeEventPublish : Code := 19

def ErrorCodeInvalidString : Code := 20

def ErrorCodeEventMapping : Code := 21

def ErrorCodeInvalidAddress : Code := 22

def ErrorCodeDuplicateAddress : Code := 23

def ErrorCodeInsufficientFunds : Code := 24

def ErrorCodeOverpayment : Code := 25

def ErrorCodeZeroPayment : Code := 26

def ErrorCodeInvalidSequence : Code := 27

def ErrorCodeReservedAddress : Code := 28

def ErrorCodeIllegalWrite : Code := 29

def ErrorCodeIntegerOverflow : Code := 30

def ErrorCodeInvalidProposal : Code := 31

def ErrorCodeExpiredProposal : Code := 32

def ErrorCodeProposalExecuted : Code := 33

def ErrorCodeNoInputPermission : Code := 34

def ErrorCodeAlreadyVoted : Code := 35

/-- Code.ErrorCode embeds the method (c Code) ErrorCode, the identity. -/
def Code.ErrorCode (c : Code) : Code := c

/-- Code.String embeds the method (c Code) String: the switch mapping every
declared code to its canonical description, in source order, with the
default branch returning the fixed unknown-error string. -/
def Code.String (c : Code) : String :=
  if c = ErrorCodeUnknownAddress then "Unknown address"
  else if c = ErrorCodeInsufficientBalance then "Insufficient balance"
  else if c = ErrorCodeInvalidJumpDest then "Invalid jump dest"
  else if c = ErrorCodeInsufficientGas then "Insufficient gas"
  else if c = ErrorCodeMemoryOutOfBounds then "Memory out of bounds"
  else if c = ErrorCodeCodeOutOfBounds then "Code out of bounds"
  else if c = ErrorCodeInputOutOfBounds then "Input out of bounds"
  else if c = ErrorCodeReturnDataOutOfBounds then "Return data out of bounds"
  else if c = ErrorCodeCallStackOverflow then "Call stack overflow"
  else if c = ErrorCodeCallStackUnderflow then "Call stack underflow"
  else if c = ErrorCodeDataStackOverflow then "Data stack overflow"
  else if c = ErrorCodeDataStackUnderflow then "Data stack underflow"
  else if c = ErrorCodeInvalidContract then "Invalid contract"
  else if c = ErrorCodePermissionDenied then "Permission denied"
  else if c = ErrorCodeNativeContractCodeCopy then "Tried to copy native contract code"
  else if c = ErrorCodeExecutionAborted then "Execution aborted"
  else if c = ErrorCodeExecutionReverted then "Execution reverted"
  else if c = ErrorCodeNativeFunction then "Native function error"
  else if c = ErrorCodeEventPublish then "Event publish error"
  else if c = ErrorCodeInvalidString then "Invalid string"
  else if c = ErrorCodeEventMapping then "Event mapping error"
  else if c = ErrorCodeGeneric then "Generic error"
  else if c = ErrorCodeInvalidAddress then "Invalid address"
  else if c = ErrorCodeDuplicateAddress then "Duplicate address"
  else if c = ErrorCodeInsufficientFunds then "Insufficient funds"
  else if c = ErrorCodeOverpayment then "Overpayment"
  else if c = ErrorCodeZeroPayment then "Zero payment error"
  else if c = ErrorCodeInvalidSequence then "Invalid sequence number"
  else if c = ErrorCodeReservedAddress then "Address is reserved for SNative or internal use"
  else if c = ErrorCodeIllegalWrite then "Callee attempted to illegally modify state"
  else if c = ErrorCodeIntegerOverflow then "Integer overflow"
  else if c = ErrorCodeInvalidProposal then "Proposal is invalid"
  else if c = ErrorCodeExpiredProposal then "Proposal is expired since sequence number does not match"
  else if c = ErrorCodeProposalExecuted then "Proposal has already been executed"
  else if c = ErrorCodeNoInputPermission then "Account has no input permission"
  else if c = ErrorCodeAlreadyVoted then "Vote already registered for this address"
  else "Unknown error"

/-- Code.Error embeds the method (c Code) Error, formatting the numeric
code together with its canonical description. -/
def Code.Error (c : Code) : Str :=
  "Error " ++ toString c ++ ": " ++ Code.String c

/-- Exception embeds the struct Exception with its Code and Exception
(message) fields; the struct is declared in the generated file of this
package and used through these two fields by every function under test. -/
structure Exception where
  Code : Code
  Exception : String
deriving DecidableEq

/-- GoError models a value of the Go error interface type as seen by the
functions of this package: a concrete Exception pointer, some other
implementation of CodedError characterized by the results of its
ErrorCode and Error methods, or a plain error characterized by the
result of its Error method. The nil interface is the none of an
enclosing Option. -/
inductive GoError where
  | exception : Option Exception → GoError
  | coded : Code → String → GoError
  | plain : String → GoError
deriving DecidableEq

/-- NewException embeds func NewException: absent on an empty message,
otherwise the pair of the given code and message. -/
def NewException (errorCode : Code) (exception : String) : Option Exception :=
  if exception = "" then none
  else some { Code := errorCode, Exception := exception }

/-- AsException embeds func AsException: nil maps to nil, a concrete
Exception pointer is returned unchanged, any other CodedError is rebuilt
through NewException from its own code and message, and a plain error is
rebuilt through NewException with the generic code. -/
def AsException : Option GoError → Option Exception
  | none => none
  | some (GoError.exception e) => e
  | some (GoError.coded c msg) => NewException c msg
  | some (GoError.plain msg) => NewException ErrorCodeGeneric msg

/-- Exception.ErrorCode embeds the method (e *Exception) ErrorCode, whose
body reads e.Code without a nil guard: on a nil receiver the field read
panics, modelled as none. -/
def Exception.ErrorCode : Option errors.Exception → Option errors.Code
  | none => none
  | some e => some e.Code

/-- Exception.Error embeds the method (e *Exception) Error, which guards
the nil receiver explicitly and returns the bare message otherwise. -/
def Exception.Error : Option errors.Exception → Str
  | none => ""
  | some e => e.Exception

/-- Exception.String embeds the method (e *Exception) String, formatting
the numeric code together with the message; its body reads the fields
without a nil guard, so a nil receiver panics, modelled as none. -/
def Exception.String : Option errors.Exception → Option Str
  | none => none
  | some e => some ("Error " ++ toString e.Code ++ ": " ++ e.Exception)

/-- Wrap embeds func Wrap: coerce the error, then build a new exception
from the coerced code and the prefixed message. Reading the code of the
coercion dereferences it without a nil guard, so when the coercion is
nil the call panics; the outer Option models that panic as none. -/
def Wrap (err : Option GoError) (message : String) : Option (Option Exception) :=
  let ex := AsException err
  (Exception.ErrorCode ex).map
    (fun code => NewException code (message ++ ": " ++ Exception.Error ex))

/-- ErrorCodef embeds func ErrorCodef, with fmt.Sprintf modelled by the
formatted result string. -/
def ErrorCodef (errorCode : Code) (formatted : String) : Option Exception :=
  NewException errorCode formatted

/-- Errorf embeds func Errorf, delegating to ErrorCodef with the generic
code. -/
def Errorf (formatted : String) : Option Exception :=
  ErrorCodef ErrorCodeGeneric formatted

/-- Exception.AsError embeds the method (e *Exception) AsError, returning
the bare nil interface for a nil receiver so that downstream nil checks
succeed, and the receiver itself otherwise. -/
def Exception.AsError : Option errors.Exception → Option GoError
  | none => none
  | some e => some (GoError.exception (some e))

/-- Exception.Equal embeds the method (e *Exception) Equal: coerce the
argument, treat the nil cases explicitly, and otherwise compare code and
message fields. -/
def Exception.Equal (e : Option errors.Exception) (ce : Option GoError) : Bool :=
  match e, AsException ce with
  | none, none => true
  | none, some _ => false
  | some _, none => false
  | some a, some b => decide (a.Code = b.Code) && decide (a.Exception = b.Exception)

/-- singleError embeds struct singleError; its embedded CodedError field
only ever holds a non-nil Exception produced by AsException, or nil, so
it is modelled as Option Exception. -/
structure singleError where
  CodedError : Option Exception
deriving DecidableEq

/-- FirstOnly embeds func FirstOnly, producing the empty latch. -/
def FirstOnly : singleError :=
  { CodedError := none }

/-- singleError.PushError embeds the method (se *singleError) PushError:
only when no error is recorded, coerce the pushed error and record the
coercion when it is non-nil. -/
def singleError.PushError (se : singleError) (err : Option GoError) : singleError :=
  match se.CodedError with
  | none =>
    match AsException err with
    | none => se
    | some ex => { CodedError := some ex }
  | some _ => se

/-- singleError.Error embeds the method (se *singleError) Error, reading
the recorded error. -/
def singleError.Error (se : singleError) : Option Exception :=
  se.CodedError

/-- singleError.Reset embeds the method (se *singleError) Reset, clearing
the recorded error. -/
def singleError.Reset (_se : singleError) : singleError :=
  { CodedError := none }

/-- pushAll folds a sequence of PushError calls over the latch, in order. -/
def pushAll (se : singleError) (errs : List (Option GoError)) : singleError :=
  errs.foldl singleError.PushError se

/-- leadsList tests whether the first list of characters stands at the
head of the second. -/
def leadsList : List Char → List Char → Bool
  | [], _ => true
  | _ :: _, [] => false
  | a :: as, b :: bs => (a == b) && leadsList as bs

/-- occursIn tests whether the first list of characters occurs
contiguously anywhere inside the second. -/
def occursIn (ns : List Char) (hay : List Char) : Bool :=
  match hay with
  | [] => leadsList ns []
  | _ :: rest => leadsList ns hay || occursIn ns rest

/-- presentNonEmpty states that a possibly-absent failure is either
absent or carries a non-empty message. -/
def presentNonEmpty (oe : Option Exception) : Prop :=
  ∀ e : Exception, oe = some e → e.Exception ≠ ""

/-- errInv states that every concrete Exception embedded in an error
interface value satisfies presentNonEmpty. -/
def errInv : Option GoError → Prop
  | some (GoError.exception oe) => presentNonEmpty oe
  | _ => True

theorem append_colon_ne_empty (a m : String) : a ++ ": " ++ m ≠ "" := by
  intro h
  have hlen := congrArg String.length h
  rw [String.length_append, String.length_append] at hlen
  have h2 : (": " : String).length = 2 := rfl
  have h0 : ("" : String).length = 0 := rfl
  simp only [h2, h0] at hlen
  omega

theorem pushError_empty_state :
    ∀ se err, se.CodedError = none →
      (singleError.PushError se err).CodedError = AsException err := by
  intro se err h
  unfold singleError.PushError
  rw [h]
  cases hA : AsException err with
  | none => simpa [hA] using h
  | some ex => simp [hA]

/-- Claim C1: the first-error latch is a state machine over an optional
recorded failure, initially empty; a push in the empty state records
exactly the coercion of the pushed value (so it latches a present
coercion and ignores an absent one), reading the current failure returns
the recorded state without side effect, reset unconditionally empties
the latch, and a push right after a reset records the coercion of the
newly pushed value. -/
theorem firstOnly_state_machine :
    FirstOnly.CodedError = none
    ∧ (∀ se err, se.CodedError = none →
        (singleError.PushError se err).CodedError = AsException err)
    ∧ (∀ se, singleError.Error se = se.CodedError)
    ∧ (∀ se, (singleError.Reset se).CodedError = none)
    ∧ (∀ se err,
        (singleError.PushError (singleError.Reset se) err).CodedError
          = AsException err) :=
  ⟨rfl, pushError_empty_state, fun _ => rfl, fun _ => rfl,
    fun se err => pushError_empty_state (singleError.Reset se) err rfl⟩

/-- Witness for C1 at a concrete input: pushing a plain error into the
fresh latch records its coercion. -/
theorem firstOnly_state_machine_witness :
    FirstOnly.CodedError = none
    ∧ (singleError.PushError FirstOnly (some (GoError.plain "boom"))).CodedError
        = AsException (some (GoError.plain "boom")) :=
  ⟨rfl, firstOnly_state_machine.2.1 FirstOnly (some (GoError.plain "boom")) rfl⟩

/-- Claim C2: once the latch holds a failure, any finite sequence of
further pushes, with arbitrary absent, exception, coded or plain
arguments and no intervening reset, leaves the recorded failure exactly
as it was. -/
theorem latched_push_noop (f : Exception) (errs : List (Option GoError)) :
    singleError.Error (pushAll { CodedError := some f } errs) = some f := by
  induction errs with
  | nil => rfl
  | cons e tl ih => exact ih

/-- Claim C3 evaluated on the code: reading the message of the absent
failure is nil-safe and yields the empty string, but reading its code
dereferences the nil receiver and panics (modelled as none), so wrapping
a value that coerces to absent panics instead of producing the failure
the claim describes. -/
theorem wrap_nil_panics :
    Exception.Error none = ""
    ∧ Exception.ErrorCode none = none
    ∧ Wrap none "ctx" = none :=
  ⟨rfl, rfl, rfl⟩

/-- Claim C5: NewException is absent exactly on the empty message, and on
a non-empty message holds exactly the given code and message with no
normalization. -/
theorem newException_spec (k : Code) (m : String) :
    (NewException k m = none ↔ m = "")
    ∧ (m ≠ "" → NewException k m = some { Code := k, Exception := m }) := by
  by_cases h : m = "" <;> simp [NewException, h]

/-- Witness for C5 at a concrete input. -/
theorem newException_spec_witness :
    ("gas exhausted" : String) ≠ ""
    ∧ NewException ErrorCodeInsufficientGas "gas exhausted"
        = some { Code := ErrorCodeInsufficientGas, Exception := "gas exhausted" } :=
  ⟨by decide, (newException_spec ErrorCodeInsufficientGas "gas exhausted").2 (by decide)⟩

/-- Claim C6: wrapping any present failure preserves its code and
prefixes its message with the context and a colon-space separator, so
the code survives arbitrarily many wrap layers. -/
theorem wrap_present (f : Exception) (ctx : String) :
    Wrap (some (GoError.exception (some f))) ctx
      = some (some { Code := f.Code, Exception := ctx ++ ": " ++ f.Exception }) := by
  simp [Wrap, AsException, Exception.ErrorCode, Exception.Error, NewException,
    append_colon_ne_empty ctx f.Exception]

/-- Counterexample for C4: a value exposing a kind but whose diagnostic
text is empty is coerced to absent, not to a present failure carrying
that kind and the empty text as the claim states. -/
theorem asException_coded_empty_message :
    AsException (some (GoError.coded ErrorCodeInsufficientGas "")) = none
    ∧ (AsException (some (GoError.coded ErrorCodeInsufficientGas ""))
        == some { Code := ErrorCodeInsufficientGas, Exception := "" }) = false :=
  ⟨rfl, rfl⟩

/-- Claim C4 as amended: coercion maps nil to nil; a concrete Exception
pointer is returned unchanged, preserving code and message exactly; any
other value exposing a kind yields a present failure with that kind and
its own diagnostic text when that text is non-empty and absent when it
is empty; and any other failure-like value yields a present failure with
the generic kind and its diagnostic text when that text is non-empty and
absent when it is empty. -/
theorem asException_spec :
    AsException none = none
    ∧ (∀ oe : Option Exception, AsException (some (GoError.exception oe)) = oe)
    ∧ (∀ (c : Code) (msg : String), msg ≠ "" →
        AsException (some (GoError.coded c msg)) = some { Code := c, Exception := msg })
    ∧ (∀ c : Code, AsException (some (GoError.coded c "")) = none)
    ∧ (∀ msg : String, msg ≠ "" →
        AsException (some (GoError.plain msg))
          = some { Code := ErrorCodeGeneric, Exception := msg })
    ∧ AsException (some (GoError.plain "")) = none := by
  refine ⟨rfl, fun oe => rfl, fun c msg h => ?_, fun c => rfl, fun msg h => ?_, rfl⟩
  · simp [AsException, NewException, h]
  · simp [AsException, NewException, h]

/-- Witness for C4 at a concrete input: coercing a coded value with a
non-empty diagnostic preserves its kind and text. -/
theorem asException_spec_witness :
    ("gas" : String) ≠ ""
    ∧ AsException (some (GoError.coded ErrorCodeInsufficientGas "gas"))
        = some { Code := ErrorCodeInsufficientGas, Exception := "gas" } :=
  ⟨by decide, asException_spec.2.2.1 ErrorCodeInsufficientGas "gas" (by decide)⟩

/-- Claim C7: the equality test is reflexive and symmetric over
possibly-absent failures, holds for two absent failures, fails between
an absent and a present failure in both argument orders, and on two
present failures reduces exactly to equality of both the code and the
message. -/
theorem equal_spec :
    (∀ a : Option Exception, Exception.Equal a (Exception.AsError a) = true)
    ∧ (∀ a b : Option Exception,
        Exception.Equal a (Exception.AsError b) = Exception.Equal b (Exception.AsError a))
    ∧ Exception.Equal none (Exception.AsError none) = true
    ∧ (∀ x : Exception, Exception.Equal none (Exception.AsError (some x)) = false)
    ∧ (∀ x : Exception, Exception.Equal (some x) (Exception.AsError none) = false)
    ∧ (∀ x y : Exception,
        Exception.Equal (some x) (Exception.AsError (some y))
          = (decide (x.Code = y.Code) && decide (x.Exception = y.Exception))) := by
  refine ⟨?_, ?_, rfl, fun x => rfl, fun x => rfl, fun x y => rfl⟩
  · intro a
    cases a with
    | none => rfl
    | some x => simp [Exception.Equal, Exception.AsError, AsException]
  · intro a b
    cases a with
    | none =>
      cases b with
      | none => rfl
      | some y => rfl
    | some x =>
      cases b with
      | none => rfl
      | some y =>
        show (decide (x.Code = y.Code) && decide (x.Exception = y.Exception))
          = (decide (y.Code = x.Code) && decide (y.Exception = x.Exception))
        by_cases h1 : x.Code = y.Code <;> by_cases h2 : x.Exception = y.Exception <;>
          simp [h1, h2, eq_comm]

/-- Claim C8: the description function is total over the numeric codes:
every declared code (below 36) maps to a non-empty description that is
not the unknown-error string, distinct declared codes map to distinct
descriptions, and every numeric value outside the declared range maps to
the fixed unknown-error string. -/
theorem code_string_spec :
    (∀ c : Code, c < 36 → Code.String c ≠ "")
    ∧ (∀ c : Code, c < 36 → Code.String c ≠ "Unknown error")
    ∧ (∀ c : Code, c < 36 → ∀ d : Code, d < 36 → c ≠ d →
        Code.String c ≠ Code.String d)
    ∧ (∀ c : Code, 36 ≤ c → Code.String c = "Unknown error") := by
  refine ⟨by decide, by decide, ?_, ?_⟩
  · have hnodup : ((List.range 36).map Code.String).Nodup := by decide
    intro c hc d hd hne heq
    exact hne (List.inj_on_of_nodup_map hnodup (List.mem_range.mpr hc)
      (List.mem_range.mpr hd) heq)
  · intro c h
    have hne : ∀ k : Code, k < 36 → ¬ c = k := fun k hk hc =>
      Nat.lt_irrefl k (Nat.lt_of_lt_of_le hk (hc ▸ h))
    simp [hne, Code.String, ErrorCodeGeneric, ErrorCodeUnknownAddress,
      ErrorCodeInsufficientBalance, ErrorCodeInvalidJumpDest, ErrorCodeInsufficientGas,
      ErrorCodeMemoryOutOfBounds, ErrorCodeCodeOutOfBounds, ErrorCodeInputOutOfBounds,
      ErrorCodeReturnDataOutOfBounds, ErrorCodeCallStackOverflow,
      ErrorCodeCallStackUnderflow, ErrorCodeDataStackOverflow,
      ErrorCodeDataStackUnderflow, ErrorCodeInvalidContract,
      ErrorCodeNativeContractCodeCopy, ErrorCodeExecutionAborted,
      ErrorCodeExecutionReverted, ErrorCodePermissionDenied, ErrorCodeNativeFunction,
      ErrorCodeEventPublish, ErrorCodeInvalidString, ErrorCodeEventMapping,
      ErrorCodeInvalidAddress, ErrorCodeDuplicateAddress, ErrorCodeInsufficientFunds,
      ErrorCodeOverpayment, ErrorCodeZeroPayment, ErrorCodeInvalidSequence,
      ErrorCodeReservedAddress, ErrorCodeIllegalWrite, ErrorCodeIntegerOverflow,
      ErrorCodeInvalidProposal, ErrorCodeExpiredProposal, ErrorCodeProposalExecuted,
      ErrorCodeNoInputPermission, ErrorCodeAlreadyVoted]

/-- Witness for C8 at concrete inputs: a declared code has a non-empty
description and an out-of-range code maps to the unknown-error string. -/
theorem code_string_spec_witness :
    (4 : Code) < 36 ∧ Code.String 4 ≠ ""
    ∧ 36 ≤ (100 : Code) ∧ Code.String 100 = "Unknown error" :=
  ⟨by decide, code_string_spec.1 4 (by decide), by decide,
    code_string_spec.2.2.2 100 (by decide)⟩

/-- Counterexample for C9: the debug string of a concrete present
failure is built from the numeric kind and the message; the canonical
description of the kind does not occur anywhere in it, against the claim
that the debug form decorates with the canonical description of the
kind. -/
theorem exception_string_no_description :
    Exception.String (some { Code := ErrorCodeInsufficientGas, Exception := "gas exhausted" })
      = some "Error 4: gas exhausted"
    ∧ Code.String ErrorCodeInsufficientGas = "Insufficient gas"
    ∧ occursIn ("Insufficient gas").data ("Error 4: gas exhausted").data = false := by
  refine ⟨by decide, by decide, by decide⟩

/-- Claim C9 as amended: the user-facing diagnostic of a present failure
is exactly its message with no decoration, and the separate debug-string
form decorates with the numeric kind and the message, so it always
differs from the user-facing diagnostic. -/
theorem exception_strings_spec (e : Exception) :
    Exception.Error (some e) = e.Exception
    ∧ Exception.String (some e)
        = some ("Error " ++ toString e.Code ++ ": " ++ e.Exception)
    ∧ (Exception.String (some e) == some (Exception.Error (some e))) = false := by
  refine ⟨rfl, rfl, ?_⟩
  rw [beq_eq_false_iff_ne]
  intro hcontra
  simp only [Exception.String, Exception.Error, Option.some.injEq] at hcontra
  have hlen := congrArg String.length hcontra
  rw [String.length_append, String.length_append] at hlen
  have h6 : ("Error " : String).length = 6 := rfl
  have h2 : (": " : String).length = 2 := rfl
  simp only [h6, h2] at hlen
  omega

/-- Claim C10: every failure value coming out of the constructors is
absent or carries a non-empty message: NewException, Errorf and
ErrorCodef unconditionally, AsException whenever the exceptions embedded
in its argument already satisfy the invariant (it can only pass such a
value through, never create one), and Wrap for every value it returns
without panicking. -/
theorem constructors_no_empty_message :
    (∀ (k : Code) (m : String), presentNonEmpty (NewException k m))
    ∧ (∀ err : Option GoError, errInv err → presentNonEmpty (AsException err))
    ∧ (∀ (err : Option GoError) (msg : String) (res : Option Exception),
        Wrap err msg = some res → presentNonEmpty res)
    ∧ (∀ fmt : String, presentNonEmpty (Errorf fmt))
    ∧ (∀ (k : Code) (fmt : String), presentNonEmpty (ErrorCodef k fmt)) := by
  have hnew : ∀ (k : Code) (m : String), presentNonEmpty (NewException k m) := by
    intro k m e he
    by_cases h : m = ""
    · simp [NewException, h] at he
    · simp [NewException, h] at he
      subst he
      exact h
  have hAs : ∀ err : Option GoError, errInv err → presentNonEmpty (AsException err) := by
    intro err hinv
    match err with
    | none => intro e he; cases he
    | some (GoError.exception oe) => exact hinv
    | some (GoError.coded c msg) => exact hnew c msg
    | some (GoError.plain msg) => exact hnew ErrorCodeGeneric msg
  have hWrap : ∀ (err : Option GoError) (msg : String) (res : Option Exception),
      Wrap err msg = some res → presentNonEmpty res := by
    intro err msg res hres
    cases hA : AsException err with
    | none => simp [Wrap, hA, Exception.ErrorCode] at hres
    | some x =>
      simp [Wrap, hA, Exception.ErrorCode, Exception.Error] at hres
      subst hres
      exact hnew _ _
  exact ⟨hnew, hAs, hWrap, fun fmt => hnew ErrorCodeGeneric fmt, fun k fmt => hnew k fmt⟩

/-- Witness for C10 at a concrete input: the coercion of a plain error
carries a non-empty message. -/
theorem constructors_no_empty_message_witness :
    errInv (some (GoError.plain "boom"))
    ∧ AsException (some (GoError.plain "boom"))
        = some { Code := ErrorCodeGeneric, Exception := "boom" }
    ∧ ({ Code := ErrorCodeGeneric, Exception := "boom" } : Exception).Exception ≠ "" :=
  ⟨trivial, by decide,
    constructors_no_empty_message.2.1 (some (GoError.plain "boom")) trivial
      { Code := ErrorCodeGeneric, Exception := "boom" } (by decide)⟩

end errors
